import Mathlib

/-
Verification development for the p2m aerial-capture scripts.

The repository has two near-duplicate variants, script.py and script_api.py.
Both are embedded below: Python strings are `List Char`, Python floats are
real numbers (`ℝ`) for the geographic math and rationals (`ℚ`) for the URL
parser (whose inputs are plain decimal literals), Python `int(...)` is
truncation toward zero, generators are `ℕ`-indexed sequences, and the
network / filesystem effects are explicit oracles (`fetch`, `saveOk`).
-/

/- Character helpers modelling the Python `str` operations used
by `parse_center_from_url` and `linear_positions`. -/

/-- Models Python `str.lower` on one character. -/
def pyLowerCh (c : Char) : Char := c.toLower

/-- Models Python `str.lower` (the sources only compare ASCII direction
tokens, so per-character lowering is faithful). -/
def pyLower (s : List Char) : List Char := s.map pyLowerCh

/-- Whitespace test used by `trimChars` (Python `str.strip`). -/
def isSpaceCh (c : Char) : Bool := c == ' ' || c == '\t' || c == '\n' || c == '\r'

/-- Models Python `str.strip`: drop leading and trailing whitespace. -/
def trimChars (s : List Char) : List Char :=
  ((s.dropWhile isSpaceCh).reverse.dropWhile isSpaceCh).reverse

/-- Does `pre` start the list `s`? -/
def startsWithCh : List Char → List Char → Bool
  | [], _ => true
  | _ :: _, [] => false
  | a :: as, b :: bs => a == b && startsWithCh as bs

/-- Fuel-driven worker for `splitOnSub`; the fuel is an upper bound on the
length of the remaining input, so the fuel case is never reached for the
fuel chosen by `splitOnSub`. -/
def splitOnSubAux (sep : List Char) : ℕ → List Char → List Char → List (List Char)
  | 0, acc, rest => [acc.reverse ++ rest]
  | _ + 1, acc, [] => [acc.reverse]
  | fuel + 1, acc, c :: rest =>
    if startsWithCh sep (c :: rest) then
      acc.reverse :: splitOnSubAux sep fuel [] ((c :: rest).drop sep.length)
    else
      splitOnSubAux sep fuel (c :: acc) rest

/-- Models Python `s.split(sep)` for a non-empty separator: the segments
between the non-overlapping left-to-right occurrences of `sep`. -/
def splitOnSub (sep s : List Char) : List (List Char) :=
  splitOnSubAux sep (s.length + 1) [] s

/-- Digit test for the decimal parser (ASCII `0`..`9`). -/
def isDigitCh (c : Char) : Bool := decide (48 ≤ c.toNat ∧ c.toNat ≤ 57)

/-- Value of a digit string (most significant first). -/
def digitsVal (l : List Char) : ℕ := l.foldl (fun a c => 10 * a + (c.toNat - 48)) 0

/-- Unsigned decimal literal: `digits`, `digits.digits`, `digits.` or
`.digits`, exactly the plain-decimal subset of Python `float` accepted by
the map-state strings. Anything else is a parse failure. -/
def parseDecimal (s : List Char) : Option ℚ :=
  match s.drop (s.takeWhile isDigitCh).length with
  | [] =>
    if (s.takeWhile isDigitCh).isEmpty then none
    else some (digitsVal (s.takeWhile isDigitCh) : ℚ)
  | '.' :: fp =>
    if fp.all isDigitCh then
      if (s.takeWhile isDigitCh).isEmpty && fp.isEmpty then none
      else some ((digitsVal (s.takeWhile isDigitCh) : ℚ) + (digitsVal fp : ℚ) / 10 ^ fp.length)
    else none
  | _ => none

/-- Models Python `float(s)` on plain decimal literals: strip whitespace,
optional sign, then an unsigned decimal; `none` models the `ValueError`
that the sources swallow with `except: return None`. -/
def parseFloat (s : List Char) : Option ℚ :=
  match trimChars s with
  | '-' :: r => (parseDecimal r).map (fun q => -q)
  | '+' :: r => parseDecimal r
  | t => parseDecimal t

/-- Models Python `int(q)` on a rational: truncation toward zero. -/
def pyTruncQ (q : ℚ) : ℤ := if q < 0 then -⌊-q⌋ else ⌊q⌋

/-- The fragment separator the sources look for (`'#/' in url`). -/
def fragSep : List Char := ['#', '/']

/-- Query separator (`.split('?')`). -/
def qmarkSep : List Char := ['?']

/-- Comma separator (`.split(',')`). -/
def commaSep : List Char := [',']

/-- Slash separator (`.split('/')`). -/
def slashSep : List Char := ['/']

/-- The token-extraction pipeline shared verbatim by the two parsers
(script.py lines 47-52 and script_api.py lines 66-71): require `'#/'` in
the url, take the part after the first `'#/'` and before any `'?'`, take
the first three comma-separated tokens, and clean the third with
`.split('/')[0].strip()`. Fails (returns `none`) exactly when the guards
`'#/' in url` or `len(coords) >= 3` fail. -/
def extract_tokens (url : List Char) : Option (List Char × List Char × List Char) :=
  if 2 ≤ (splitOnSub fragSep url).length then
    match (splitOnSub commaSep
        ((splitOnSub qmarkSep ((splitOnSub fragSep url).getD 1 [])).headD [])).take 3 with
    | t1 :: t2 :: t3 :: _ =>
      some (t1, t2, trimChars ((splitOnSub slashSep t3).headD []))
    | _ => none
  else none

namespace script

/-- Embedding of `parse_center_from_url` from script.py (lines 44-56):
after the shared token extraction, the unpacking
`lat_s, lon_s, zoom_s = coords` binds the first token as latitude and
the second as longitude; the result is
`float(lat_s), float(lon_s), int(float(zoom_s))`, with any conversion
error mapped to `none` by the bare `except: pass`. -/
def parse_center_from_url (url : List Char) : Option (ℚ × ℚ × ℤ) :=
  match extract_tokens url with
  | some (lat_s, lon_s, zoom_s) =>
    match parseFloat lat_s, parseFloat lon_s, parseFloat zoom_s with
    | some la, some lo, some zf => some (la, lo, pyTruncQ zf)
    | _, _, _ => none
  | none => none

end script

namespace script_api

/-- Embedding of `parse_center_from_url` from script_api.py (lines 62-75):
identical token extraction, but the unpacking
`lon_s, lat_s, zoom_s = coords` binds the first token as longitude and
the second as latitude before returning `(lat, lon, zoom)`. -/
def parse_center_from_url (url : List Char) : Option (ℚ × ℚ × ℤ) :=
  match extract_tokens url with
  | some (lon_s, lat_s, zoom_s) =>
    match parseFloat lat_s, parseFloat lon_s, parseFloat zoom_s with
    | some la, some lo, some zf => some (la, lo, pyTruncQ zf)
    | _, _, _ => none
  | none => none

end script_api

/- Concrete map-state strings used by the parser claims. -/

/-- The well-formed example URL from the spec. -/
def goodUrl : List Char := ("https://map.openaerialmap.org/#/12.5,34.25,18").toList

/-- The malformed example URL from the spec (no `#/` fragment). -/
def noCoordsUrl : List Char := ("https://host/nocoords").toList

/-- A fragment with only two numeric tokens. -/
def fewTokensUrl : List Char := ("https://host/#/12.5,34.25").toList

/-- A fragment whose three tokens are not numeric. -/
def badTokensUrl : List Char := ("https://host/#/a,b,c").toList

/- Evaluation helpers for the parser claims. -/

lemma extract_tokens_goodUrl :
    extract_tokens goodUrl
      = some (['1', '2', '.', '5'], ['3', '4', '.', '2', '5'], ['1', '8']) := by decide

lemma parseFloat_12_5 : parseFloat ['1', '2', '.', '5'] = some (25 / 2) := by
  simp [parseFloat, parseDecimal, trimChars, isSpaceCh, isDigitCh, digitsVal]
  norm_num

lemma parseFloat_34_25 : parseFloat ['3', '4', '.', '2', '5'] = some (137 / 4) := by
  simp [parseFloat, parseDecimal, trimChars, isSpaceCh, isDigitCh, digitsVal]
  norm_num

lemma parseFloat_18 : parseFloat ['1', '8'] = some 18 := by
  simp [parseFloat, parseDecimal, trimChars, isSpaceCh, isDigitCh, digitsVal]

lemma pyTruncQ_18 : pyTruncQ 18 = 18 := by
  rw [pyTruncQ, if_neg (by norm_num)]
  norm_num

lemma script_parse_goodUrl :
    script.parse_center_from_url goodUrl = some (25 / 2, 137 / 4, 18) := by
  simp only [script.parse_center_from_url, extract_tokens_goodUrl, parseFloat_12_5,
    parseFloat_34_25, parseFloat_18, pyTruncQ_18]

lemma script_api_parse_goodUrl :
    script_api.parse_center_from_url goodUrl = some (137 / 4, 25 / 2, 18) := by
  simp only [script_api.parse_center_from_url, extract_tokens_goodUrl, parseFloat_12_5,
    parseFloat_34_25, parseFloat_18, pyTruncQ_18]

/-- The two parsers differ only in the tuple unpacking, so the api variant
always returns the script variant's first two components swapped. -/
lemma parse_swap (url : List Char) :
    script_api.parse_center_from_url url
      = Option.map (fun t : ℚ × ℚ × ℤ => (t.2.1, t.1, t.2.2))
          (script.parse_center_from_url url) := by
  rw [script_api.parse_center_from_url, script.parse_center_from_url]
  cases h : extract_tokens url with
  | none => simp
  | some t =>
    obtain ⟨a, b, c⟩ := t
    rcases h1 : parseFloat a with _ | qa <;> rcases h2 : parseFloat b with _ | qb <;>
      rcases h3 : parseFloat c with _ | qc <;> simp [h1, h2, h3]

/-- C4: for every map-state string, script.py's `parse_center_from_url`
returns `some (a, b, z)` exactly when script_api.py's returns
`some (b, a, z)` (same zoom, swapped coordinate pair), and on the spec's
example URL the two parsers return different values, so the two
embeddings are not extensionally equal. -/
theorem c4_parsers_disagree :
    (∀ (url : List Char) (a b : ℚ) (z : ℤ),
      script.parse_center_from_url url = some (a, b, z)
        ↔ script_api.parse_center_from_url url = some (b, a, z))
  ∧ script.parse_center_from_url goodUrl ≠ script_api.parse_center_from_url goodUrl := by
  constructor
  · intro url a b z
    rw [parse_swap url]
    constructor
    · intro h
      rw [h]
      rfl
    · intro h
      rcases Option.map_eq_some'.mp h with ⟨t, ht, hswap⟩
      obtain ⟨t1, t2, t3⟩ := t
      obtain ⟨hb, ha, hz⟩ : t2 = b ∧ t1 = a ∧ t3 = z := by simpa using hswap
      subst hb
      subst ha
      subst hz
      exact ht
  · rw [script_parse_goodUrl, script_api_parse_goodUrl]
    simp only [ne_eq, Option.some.injEq, Prod.mk.injEq, not_and]
    intro h
    norm_num at h

/-- C5: on the spec's example URL both parsers return the three numeric
components 12.5, 34.25 and 18; on URLs with no `'#/'` fragment, with
fewer than three tokens, or with non-numeric tokens, both return `none`
(a typed failure) rather than raising. -/
theorem c5_parse_example_and_failures :
    script.parse_center_from_url goodUrl = some (25 / 2, 137 / 4, 18)
  ∧ script_api.parse_center_from_url goodUrl = some (137 / 4, 25 / 2, 18)
  ∧ script.parse_center_from_url noCoordsUrl = none
  ∧ script_api.parse_center_from_url noCoordsUrl = none
  ∧ script.parse_center_from_url fewTokensUrl = none
  ∧ script_api.parse_center_from_url fewTokensUrl = none
  ∧ script.parse_center_from_url badTokensUrl = none
  ∧ script_api.parse_center_from_url badTokensUrl = none
  ∧ ∀ url : List Char, (splitOnSub fragSep url).length < 2 →
      script.parse_center_from_url url = none
    ∧ script_api.parse_center_from_url url = none := by
  refine ⟨script_parse_goodUrl, script_api_parse_goodUrl, by decide, by decide, by decide,
    by decide, by decide, by decide, ?_⟩
  intro url h
  have hn : extract_tokens url = none := by
    rw [extract_tokens, if_neg (by omega)]
  rw [script.parse_center_from_url, script_api.parse_center_from_url, hn]
  exact ⟨rfl, rfl⟩

/-- Witness for C5: a concrete URL with no `'#/'` fragment satisfies the
hypothesis of the final conjunct and both parsers return `none` on it. -/
theorem c5_parse_example_and_failures_witness :
    (splitOnSub fragSep noCoordsUrl).length < 2
  ∧ script.parse_center_from_url noCoordsUrl = none
  ∧ script_api.parse_center_from_url noCoordsUrl = none :=
  ⟨by decide, c5_parse_example_and_failures.2.2.2.2.2.2.2.2 noCoordsUrl (by decide)⟩

/- Geographic math. Python floats are modelled as real numbers; the float
literal `1e-12` is modelled as the exact value 1 / 10^12. -/

/-- Direction token `"north"`. -/
def northTok : List Char := ['n', 'o', 'r', 't', 'h']

/-- Direction token `"south"`. -/
def southTok : List Char := ['s', 'o', 'u', 't', 'h']

/-- Direction token `"east"`. -/
def eastTok : List Char := ['e', 'a', 's', 't']

/-- Direction token `"west"`. -/
def westTok : List Char := ['w', 'e', 's', 't']

/-- Embedding of `meters_to_deg` (identical in script.py lines 16-20 and
script_api.py lines 27-33): per-step degree deltas
`(meters / 111320, meters / (111320 * cos(radians(lat)) + 1e-12))`. -/
noncomputable def meters_to_deg (lat meters : ℝ) : ℝ × ℝ :=
  (meters / 111320, meters / (111320 * Real.cos (lat * Real.pi / 180) + 1 / 10 ^ 12))

namespace script

/-- The `(dlat, dlng)` pair chosen by the `if direction.lower() == ...`
chain of script.py's `linear_positions` (lines 28-36): note the source
puts the longitude delta on `"north"`/`"south"` and the latitude delta on
`"east"`/`"west"`, and leaves both deltas untouched on any other token. -/
noncomputable def step_deltas (center_lat step_m : ℝ) (direction : List Char) : ℝ × ℝ :=
  if pyLower direction = northTok then (0, (meters_to_deg center_lat step_m).2)
  else if pyLower direction = southTok then (0, -(meters_to_deg center_lat step_m).2)
  else if pyLower direction = eastTok then ((meters_to_deg center_lat step_m).1, 0)
  else if pyLower direction = westTok then (-(meters_to_deg center_lat step_m).1, 0)
  else meters_to_deg center_lat step_m

/-- Embedding of the infinite generator `linear_positions` of script.py
(lines 23-41) as the sequence of its yielded values: position 0 is the
anchor, each later position adds the fixed `(dlat, dlng)` step. -/
noncomputable def linear_positions (center_lat center_lon step_m : ℝ)
    (direction : List Char) : ℕ → ℝ × ℝ
  | 0 => (center_lat, center_lon)
  | k + 1 =>
    ((linear_positions center_lat center_lon step_m direction k).1
        + (step_deltas center_lat step_m direction).1,
     (linear_positions center_lat center_lon step_m direction k).2
        + (step_deltas center_lat step_m direction).2)

end script

namespace script_api

/-- The `(dlat, dlng)` pair chosen by the `if direction.lower() == ...`
chain of script_api.py's `linear_positions` (lines 44-52): here the
latitude delta goes with `"north"`/`"south"` and the longitude delta with
`"east"`/`"west"`; both deltas are left untouched on any other token. -/
noncomputable def step_deltas (center_lat step_m : ℝ) (direction : List Char) : ℝ × ℝ :=
  if pyLower direction = northTok then ((meters_to_deg center_lat step_m).1, 0)
  else if pyLower direction = southTok then (-(meters_to_deg center_lat step_m).1, 0)
  else if pyLower direction = eastTok then (0, (meters_to_deg center_lat step_m).2)
  else if pyLower direction = westTok then (0, -(meters_to_deg center_lat step_m).2)
  else meters_to_deg center_lat step_m

/-- Embedding of the infinite generator `linear_positions` of
script_api.py (lines 38-57) as the sequence of its yielded values. -/
noncomputable def linear_positions (center_lat center_lon step_m : ℝ)
    (direction : List Char) : ℕ → ℝ × ℝ
  | 0 => (center_lat, center_lon)
  | k + 1 =>
    ((linear_positions center_lat center_lon step_m direction k).1
        + (step_deltas center_lat step_m direction).1,
     (linear_positions center_lat center_lon step_m direction k).2
        + (step_deltas center_lat step_m direction).2)

end script_api

/- Closed forms and sign facts for the walkers. -/

lemma script_positions_closed (lat lon step : ℝ) (dir : List Char) (k : ℕ) :
    script.linear_positions lat lon step dir k
      = (lat + k * (script.step_deltas lat step dir).1,
         lon + k * (script.step_deltas lat step dir).2) := by
  induction k with
  | zero => simp [script.linear_positions]
  | succ n ih =>
    rw [script.linear_positions, ih]
    push_cast
    rw [Prod.mk.injEq]
    constructor <;> ring

lemma script_api_positions_closed (lat lon step : ℝ) (dir : List Char) (k : ℕ) :
    script_api.linear_positions lat lon step dir k
      = (lat + k * (script_api.step_deltas lat step dir).1,
         lon + k * (script_api.step_deltas lat step dir).2) := by
  induction k with
  | zero => simp [script_api.linear_positions]
  | succ n ih =>
    rw [script_api.linear_positions, ih]
    push_cast
    rw [Prod.mk.injEq]
    constructor <;> ring

/-- For a latitude in the geographic domain and a positive step, both
per-step degree deltas are positive (the `+ 1e-12` keeps the longitude
denominator positive even where the cosine vanishes at the poles). -/
lemma meters_to_deg_pos (lat step : ℝ) (h1 : -90 ≤ lat) (h2 : lat ≤ 90) (h3 : 0 < step) :
    0 < (meters_to_deg lat step).1 ∧ 0 < (meters_to_deg lat step).2 := by
  have hpi := Real.pi_pos
  have hcos : 0 ≤ Real.cos (lat * Real.pi / 180) := by
    apply Real.cos_nonneg_of_mem_Icc
    constructor
    · have : -90 * Real.pi / 180 = -(Real.pi / 2) := by ring
      nlinarith
    · nlinarith
  constructor
  · exact div_pos h3 (by norm_num)
  · apply div_pos h3
    positivity

lemma script_deltas_north (lat step : ℝ) :
    script.step_deltas lat step northTok = (0, (meters_to_deg lat step).2) := by
  rw [script.step_deltas, if_pos (by decide)]

lemma script_deltas_south (lat step : ℝ) :
    script.step_deltas lat step southTok = (0, -(meters_to_deg lat step).2) := by
  rw [script.step_deltas, if_neg (by decide), if_pos (by decide)]

lemma script_deltas_east (lat step : ℝ) :
    script.step_deltas lat step eastTok = ((meters_to_deg lat step).1, 0) := by
  rw [script.step_deltas, if_neg (by decide), if_neg (by decide), if_pos (by decide)]

lemma script_deltas_west (lat step : ℝ) :
    script.step_deltas lat step westTok = (-(meters_to_deg lat step).1, 0) := by
  rw [script.step_deltas, if_neg (by decide), if_neg (by decide), if_neg (by decide),
    if_pos (by decide)]

lemma script_api_deltas_north (lat step : ℝ) :
    script_api.step_deltas lat step northTok = ((meters_to_deg lat step).1, 0) := by
  rw [script_api.step_deltas, if_pos (by decide)]

lemma script_api_deltas_south (lat step : ℝ) :
    script_api.step_deltas lat step southTok = (-(meters_to_deg lat step).1, 0) := by
  rw [script_api.step_deltas, if_neg (by decide), if_pos (by decide)]

lemma script_api_deltas_east (lat step : ℝ) :
    script_api.step_deltas lat step eastTok = (0, (meters_to_deg lat step).2) := by
  rw [script_api.step_deltas, if_neg (by decide), if_neg (by decide), if_pos (by decide)]

lemma script_api_deltas_west (lat step : ℝ) :
    script_api.step_deltas lat step westTok = (0, -(meters_to_deg lat step).2) := by
  rw [script_api.step_deltas, if_neg (by decide), if_neg (by decide), if_neg (by decide),
    if_pos (by decide)]

/-- C1 (amended): with a latitude in the geographic domain and a positive
step, both per-step deltas are positive and script_api.py's
`linear_positions` walks exactly as the claim assigns: north adds
`+deltaLat` per step with longitude constant, south `-deltaLat`, east
`+deltaLon` with latitude constant (so successive longitudes strictly
increase by the constant delta), west `-deltaLon`. script.py's variant
applies the same deltas to the swapped axes: its `north` walks `+deltaLon`
in longitude, `south` `-deltaLon`, `east` `+deltaLat` in latitude, `west`
`-deltaLat`. -/
theorem c1_walker_directions (lat lon step : ℝ)
    (hlat1 : -90 ≤ lat) (hlat2 : lat ≤ 90) (hstep : 0 < step) (k : ℕ) :
    0 < (meters_to_deg lat step).1 ∧ 0 < (meters_to_deg lat step).2
  ∧ script_api.linear_positions lat lon step northTok k
      = (lat + (k : ℝ) * (meters_to_deg lat step).1, lon)
  ∧ script_api.linear_positions lat lon step southTok k
      = (lat - (k : ℝ) * (meters_to_deg lat step).1, lon)
  ∧ script_api.linear_positions lat lon step eastTok k
      = (lat, lon + (k : ℝ) * (meters_to_deg lat step).2)
  ∧ script_api.linear_positions lat lon step westTok k
      = (lat, lon - (k : ℝ) * (meters_to_deg lat step).2)
  ∧ script.linear_positions lat lon step northTok k
      = (lat, lon + (k : ℝ) * (meters_to_deg lat step).2)
  ∧ script.linear_positions lat lon step southTok k
      = (lat, lon - (k : ℝ) * (meters_to_deg lat step).2)
  ∧ script.linear_positions lat lon step eastTok k
      = (lat + (k : ℝ) * (meters_to_deg lat step).1, lon)
  ∧ script.linear_positions lat lon step westTok k
      = (lat - (k : ℝ) * (meters_to_deg lat step).1, lon) := by
  obtain ⟨hp1, hp2⟩ := meters_to_deg_pos lat step hlat1 hlat2 hstep
  refine ⟨hp1, hp2, ?_, ?_, ?_, ?_, ?_, ?_, ?_, ?_⟩ <;>
    simp only [script_api_positions_closed, script_positions_closed,
      script_api_deltas_north, script_api_deltas_south, script_api_deltas_east,
      script_api_deltas_west, script_deltas_north, script_deltas_south,
      script_deltas_east, script_deltas_west] <;>
    rw [Prod.mk.injEq] <;> constructor <;> ring

/-- Witness for C1 (amended): the theorem applied at the anchor (0, 0),
step 111320 m and one walk step. -/
theorem c1_walker_directions_witness :
    ((-90 : ℝ) ≤ 0 ∧ (0 : ℝ) ≤ 90 ∧ (0 : ℝ) < 111320)
  ∧ (0 < (meters_to_deg 0 111320).1 ∧ 0 < (meters_to_deg 0 111320).2
  ∧ script_api.linear_positions 0 0 111320 northTok 1
      = (0 + ((1 : ℕ) : ℝ) * (meters_to_deg 0 111320).1, 0)
  ∧ script_api.linear_positions 0 0 111320 southTok 1
      = (0 - ((1 : ℕ) : ℝ) * (meters_to_deg 0 111320).1, 0)
  ∧ script_api.linear_positions 0 0 111320 eastTok 1
      = (0, 0 + ((1 : ℕ) : ℝ) * (meters_to_deg 0 111320).2)
  ∧ script_api.linear_positions 0 0 111320 westTok 1
      = (0, 0 - ((1 : ℕ) : ℝ) * (meters_to_deg 0 111320).2)
  ∧ script.linear_positions 0 0 111320 northTok 1
      = (0, 0 + ((1 : ℕ) : ℝ) * (meters_to_deg 0 111320).2)
  ∧ script.linear_positions 0 0 111320 southTok 1
      = (0, 0 - ((1 : ℕ) : ℝ) * (meters_to_deg 0 111320).2)
  ∧ script.linear_positions 0 0 111320 eastTok 1
      = (0 + ((1 : ℕ) : ℝ) * (meters_to_deg 0 111320).1, 0)
  ∧ script.linear_positions 0 0 111320 westTok 1
      = (0 - ((1 : ℕ) : ℝ) * (meters_to_deg 0 111320).1, 0)) :=
  ⟨⟨by norm_num, by norm_num, by norm_num⟩,
   c1_walker_directions 0 0 111320 (by norm_num) (by norm_num) (by norm_num) 1⟩

/-- Counterexample for C1 as stated: script.py's `linear_positions` with
direction `"east"`, anchor (0, 0) and step 111320 m changes the latitude
on the very first step (it adds the full latitude delta, here exactly 1
degree), so the claim's "for direction East ... latitude stays constant
across the whole sequence" is false of script.py's variant. -/
theorem c1_walker_directions_counterexample :
    (script.linear_positions 0 0 111320 eastTok 1).1
      ≠ (script.linear_positions 0 0 111320 eastTok 0).1 := by
  have h1 : (meters_to_deg 0 111320).1 = 1 := by
    rw [meters_to_deg]
    norm_num
  simp only [script_positions_closed, script_deltas_east, h1]
  norm_num

/-- C10: for any direction string that is not (case-insensitively) one of
the four cardinal tokens, both variants' `linear_positions` fall through
every branch and advance the position by the full `(deltaLat, deltaLon)`
pair on each step after the first; for an in-domain latitude and positive
step both deltas are positive, so the walk is a north-east diagonal. -/
theorem c10_unknown_direction_diagonal (lat lon step : ℝ) (dir : List Char)
    (hlat1 : -90 ≤ lat) (hlat2 : lat ≤ 90) (hstep : 0 < step)
    (h1 : pyLower dir ≠ northTok) (h2 : pyLower dir ≠ southTok)
    (h3 : pyLower dir ≠ eastTok) (h4 : pyLower dir ≠ westTok) (k : ℕ) :
    0 < (meters_to_deg lat step).1 ∧ 0 < (meters_to_deg lat step).2
  ∧ script.linear_positions lat lon step dir (k + 1)
      = ((script.linear_positions lat lon step dir k).1 + (meters_to_deg lat step).1,
         (script.linear_positions lat lon step dir k).2 + (meters_to_deg lat step).2)
  ∧ script_api.linear_positions lat lon step dir (k + 1)
      = ((script_api.linear_positions lat lon step dir k).1 + (meters_to_deg lat step).1,
         (script_api.linear_positions lat lon step dir k).2 + (meters_to_deg lat step).2) := by
  obtain ⟨hp1, hp2⟩ := meters_to_deg_pos lat step hlat1 hlat2 hstep
  have hd : script.step_deltas lat step dir = meters_to_deg lat step := by
    rw [script.step_deltas, if_neg h1, if_neg h2, if_neg h3, if_neg h4]
  have hd' : script_api.step_deltas lat step dir = meters_to_deg lat step := by
    rw [script_api.step_deltas, if_neg h1, if_neg h2, if_neg h3, if_neg h4]
  refine ⟨hp1, hp2, ?_, ?_⟩
  · rw [script.linear_positions, hd]
  · rw [script_api.linear_positions, hd']

/-- Witness for C10: the theorem applied to the non-cardinal direction
string "up" at anchor (0, 0) with a 1 m step. -/
theorem c10_unknown_direction_diagonal_witness :
    ((-90 : ℝ) ≤ 0 ∧ (0 : ℝ) ≤ 90 ∧ (0 : ℝ) < 1
      ∧ pyLower ['u', 'p'] ≠ northTok ∧ pyLower ['u', 'p'] ≠ southTok
      ∧ pyLower ['u', 'p'] ≠ eastTok ∧ pyLower ['u', 'p'] ≠ westTok)
  ∧ (0 < (meters_to_deg 0 1).1 ∧ 0 < (meters_to_deg 0 1).2
  ∧ script.linear_positions 0 0 1 ['u', 'p'] (0 + 1)
      = ((script.linear_positions 0 0 1 ['u', 'p'] 0).1 + (meters_to_deg 0 1).1,
         (script.linear_positions 0 0 1 ['u', 'p'] 0).2 + (meters_to_deg 0 1).2)
  ∧ script_api.linear_positions 0 0 1 ['u', 'p'] (0 + 1)
      = ((script_api.linear_positions 0 0 1 ['u', 'p'] 0).1 + (meters_to_deg 0 1).1,
         (script_api.linear_positions 0 0 1 ['u', 'p'] 0).2 + (meters_to_deg 0 1).2)) :=
  ⟨⟨by norm_num, by norm_num, by norm_num, by decide, by decide, by decide, by decide⟩,
   c10_unknown_direction_diagonal 0 0 1 ['u', 'p'] (by norm_num) (by norm_num) (by norm_num)
     (by decide) (by decide) (by decide) (by decide) 0⟩

/- Tile-grid compositing. An image is a size together with a pixel
function; tiles are 256x256 pixel payloads supplied by the fetch oracle,
which returns `none` for any of the failure modes the source absorbs at
the inner `except` (network error, `raise_for_status`, undecodable
payload). -/

/-- RGB pixel value. -/
abbrev Color := ℕ × ℕ × ℕ

/-- Background fill of `Image.new('RGB', ..., 'white')`. -/
def white : Color := (255, 255, 255)

/-- A fetched 256x256 tile's pixel payload. -/
abbrev Tile := ℕ → ℕ → Color

/-- A raster: square canvas side length in pixels and the pixel map. -/
structure Img where
  size : ℕ
  pix : ℤ → ℤ → Color

/-- Models PIL `Image.paste(tile, (x0, y0))`: tile pixels replace canvas
pixels on the 256x256 box at `(x0, y0)`, clipped to the canvas. -/
def paste (img : Img) (tile : Tile) (x0 y0 : ℤ) : Img :=
  { size := img.size,
    pix := fun x y =>
      if x0 ≤ x ∧ x < x0 + 256 ∧ y0 ≤ y ∧ y < y0 + 256
          ∧ 0 ≤ x ∧ x < (img.size : ℤ) ∧ 0 ≤ y ∧ y < (img.size : ℤ) then
        tile (x - x0).toNat (y - y0).toNat
      else img.pix x y }

/-- Models Python `range(a, b)` over integers. -/
def pyRange (a b : ℤ) : List ℤ :=
  (List.range (b - a).toNat).map (fun (k : ℕ) => a + (k : ℤ))

namespace script_api

/-- The grid offsets visited by `download_image`'s nested loops
`for dx in range(-half, half + 1): for dy in range(-half, half + 1)`
(script_api.py lines 108-109), with `half = grid_size // 2`. -/
def grid_offsets (g : ℕ) : List (ℤ × ℤ) :=
  ((pyRange (-((g : ℤ) / 2)) ((g : ℤ) / 2 + 1)).map (fun dx =>
    (pyRange (-((g : ℤ) / 2)) ((g : ℤ) / 2 + 1)).map (fun dy => (dx, dy)))).flatten

/-- The paste offset `(d + half) * 256` of script_api.py lines 118-119. -/
def paste_pos (g : ℕ) (d : ℤ) : ℤ := (d + (g : ℤ) / 2) * 256

/-- The `grid_size = 2` hard-coded in `download_image`
(script_api.py line 101). -/
def grid_size_src : ℕ := 2

/-- The tile-fetch-and-paste loop of `download_image` (script_api.py
lines 101-122), parameterised by the source's local `grid_size`: start
from a white canvas of side `grid_size * 256` and fold over the grid
offsets, pasting each successfully fetched tile at its paste offset and
leaving the canvas untouched when the fetch oracle fails. -/
def download_image_grid (fetch : ℤ → ℤ → ℕ → Option Tile) (cx cy : ℤ) (zoom : ℕ)
    (g : ℕ) : Img :=
  (grid_offsets g).foldl
    (fun img d =>
      match fetch (cx + d.1) (cy + d.2) zoom with
      | some tile => paste img tile (paste_pos g d.1) (paste_pos g d.2)
      | none => img)
    { size := g * 256, pix := fun _ _ => white }

end script_api

/-- The Web-Mercator y fraction
`(1 - log(tan(lat_rad) + 1 / cos(lat_rad)) / pi) / 2` of
script_api.py line 88. -/
noncomputable def mercator_frac (lat : ℝ) : ℝ :=
  (1 - Real.log (Real.tan (lat * Real.pi / 180)
      + 1 / Real.cos (lat * Real.pi / 180)) / Real.pi) / 2

/-- Models Python `int(x)` on a real: truncation toward zero. -/
noncomputable def pyTruncR (x : ℝ) : ℤ := if x < 0 then -⌊-x⌋ else ⌊x⌋

namespace script_api

/-- Embedding of `get_tile_coords` (script_api.py lines 80-89):
`n = 2 ** zoom`, `x = int((lon + 180) / 360 * n)` and
`y = int(mercator_frac(lat) * n)`, with `n` inlined. -/
noncomputable def get_tile_coords (lat lon : ℝ) (zoom : ℕ) : ℤ × ℤ :=
  (pyTruncR ((lon + 180) / 360 * 2 ^ zoom), pyTruncR (mercator_frac lat * 2 ^ zoom))

end script_api

/-- One persisted capture file: the data embedded in the
`cap_{index:03d}_{lat:.6f}_{lon:.6f}.png` name plus the composite. -/
structure CapFile where
  index : ℤ
  lat : ℝ
  lon : ℝ
  img : Img

namespace script_api

/-- Embedding of `download_image` (script_api.py lines 94-130): compute
the center tile from the position, composite the tile grid (per-tile
failures absorbed inside the loop), then save. The `saveOk` flag models
the filesystem outcome of `combined.save`: the outer `except` returns
`None` only when that raises, never because tiles failed. -/
noncomputable def download_image (fetch : ℤ → ℤ → ℕ → Option Tile) (saveOk : Bool)
    (lat lon : ℝ) (zoom : ℕ) (index : ℤ) : Option CapFile :=
  if saveOk then
    some { index := index, lat := lat, lon := lon,
           img := download_image_grid fetch (get_tile_coords lat lon zoom).1
                    (get_tile_coords lat lon zoom).2 zoom grid_size_src }
  else none

end script_api

/- Helper lemmas for the compositing claims. -/

/-- When every fetch fails, the fold of the tile loop never pastes. -/
lemma grid_foldl_all_fail (fetch : ℤ → ℤ → ℕ → Option Tile)
    (h : ∀ x y z, fetch x y z = none) (cx cy : ℤ) (zoom g : ℕ)
    (l : List (ℤ × ℤ)) (init : Img) :
    l.foldl
      (fun img d =>
        match fetch (cx + d.1) (cy + d.2) zoom with
        | some tile => paste img tile (script_api.paste_pos g d.1) (script_api.paste_pos g d.2)
        | none => img)
      init = init := by
  induction l generalizing init with
  | nil => rfl
  | cons d t ih =>
    rw [List.foldl_cons]
    simp only [h (cx + d.1) (cy + d.2) zoom]
    exact ih init

/-- The tile loop never changes the allocated canvas size. -/
lemma grid_foldl_size (fetch : ℤ → ℤ → ℕ → Option Tile) (cx cy : ℤ) (zoom g : ℕ)
    (l : List (ℤ × ℤ)) (init : Img) :
    (l.foldl
      (fun img d =>
        match fetch (cx + d.1) (cy + d.2) zoom with
        | some tile => paste img tile (script_api.paste_pos g d.1) (script_api.paste_pos g d.2)
        | none => img)
      init).size = init.size := by
  induction l generalizing init with
  | nil => rfl
  | cons d t ih =>
    rw [List.foldl_cons, ih]
    cases fetch (cx + d.1) (cy + d.2) zoom <;> rfl

lemma mem_pyRange (a b x : ℤ) : x ∈ pyRange a b ↔ a ≤ x ∧ x < a + ((b - a).toNat : ℤ) := by
  rw [pyRange]
  constructor
  · intro hx
    obtain ⟨k, hk, hfk⟩ := List.mem_map.mp hx
    rw [List.mem_range] at hk
    subst hfk
    omega
  · intro h
    apply List.mem_map.mpr
    refine ⟨(x - a).toNat, ?_, ?_⟩
    · rw [List.mem_range]
      omega
    · omega

lemma mem_grid_offsets (g : ℕ) (dx dy : ℤ) :
    (dx, dy) ∈ script_api.grid_offsets g
      ↔ dx ∈ pyRange (-((g : ℤ) / 2)) ((g : ℤ) / 2 + 1)
      ∧ dy ∈ pyRange (-((g : ℤ) / 2)) ((g : ℤ) / 2 + 1) := by
  constructor
  · intro h
    rw [script_api.grid_offsets, List.mem_flatten] at h
    obtain ⟨l, hl, hmem⟩ := h
    rw [List.mem_map] at hl
    obtain ⟨dx', hdx', rfl⟩ := hl
    rw [List.mem_map] at hmem
    obtain ⟨dy', hdy', heq⟩ := hmem
    obtain ⟨h1, h2⟩ := Prod.mk.injEq .. ▸ heq
    subst h1
    subst h2
    exact ⟨hdx', hdy'⟩
  · rintro ⟨h1, h2⟩
    rw [script_api.grid_offsets, List.mem_flatten]
    exact ⟨_, List.mem_map_of_mem _ h1, List.mem_map_of_mem _ h2⟩

/-- C2: when every tile fetch in the grid fails, `download_image` does not
abort: the grid fold returns the untouched white canvas of the allocated
size (2 * 256 = 512 on each side for the source's `grid_size = 2`), and
the composite is still saved and returned rather than an error. -/
theorem c2_all_tiles_fail_still_composites (fetch : ℤ → ℤ → ℕ → Option Tile)
    (h : ∀ x y z, fetch x y z = none) :
    (∀ (cx cy : ℤ) (zoom : ℕ),
      script_api.download_image_grid fetch cx cy zoom script_api.grid_size_src
        = { size := 512, pix := fun _ _ => white })
  ∧ ∀ (lat lon : ℝ) (zoom : ℕ) (index : ℤ),
      script_api.download_image fetch true lat lon zoom index
        = some { index := index, lat := lat, lon := lon,
                 img := { size := 512, pix := fun _ _ => white } } := by
  have hgrid : ∀ (cx cy : ℤ) (zoom : ℕ),
      script_api.download_image_grid fetch cx cy zoom script_api.grid_size_src
        = { size := 512, pix := fun _ _ => white } := by
    intro cx cy zoom
    rw [script_api.download_image_grid, grid_foldl_all_fail fetch h]
    rfl
  refine ⟨hgrid, ?_⟩
  intro lat lon zoom index
  rw [script_api.download_image, if_pos rfl, hgrid]

/-- Witness for C2: the theorem applied to the constantly failing fetch
oracle at a concrete position and index. -/
theorem c2_all_tiles_fail_still_composites_witness :
    (∀ (x y : ℤ) (z : ℕ), (fun (_ : ℤ) (_ : ℤ) (_ : ℕ) => (none : Option Tile)) x y z = none)
  ∧ ((∀ (cx cy : ℤ) (zoom : ℕ),
      script_api.download_image_grid (fun _ _ _ => none) cx cy zoom script_api.grid_size_src
        = { size := 512, pix := fun _ _ => white })
  ∧ ∀ (lat lon : ℝ) (zoom : ℕ) (index : ℤ),
      script_api.download_image (fun _ _ _ => none) true lat lon zoom index
        = some { index := index, lat := lat, lon := lon,
                 img := { size := 512, pix := fun _ _ => white } }) :=
  ⟨fun _ _ _ => rfl, c2_all_tiles_fail_still_composites (fun _ _ _ => none) (fun _ _ _ => rfl)⟩

/-- C7 (amended): for every odd `gridSize >= 1` the composite allocates a
canvas of side `gridSize * 256`, iterates exactly the offsets of the
square `[-half, +half]^2` with `half = gridSize / 2`, and pastes every
visited offset at `((d + half) * 256)` per axis, entirely inside the
canvas. (For even `gridSize`, including the source's hard-coded 2, the
loop still visits the full square but the row and column at `+half` are
pasted at pixel offset `gridSize * 256`, outside the canvas — see the
counterexample.) -/
theorem c7_grid_geometry (g : ℕ) (hg : 1 ≤ g) (hodd : g % 2 = 1)
    (fetch : ℤ → ℤ → ℕ → Option Tile) (cx cy : ℤ) (zoom : ℕ) (dx dy : ℤ) :
    (script_api.download_image_grid fetch cx cy zoom g).size = g * 256
  ∧ ((dx, dy) ∈ script_api.grid_offsets g
      ↔ -((g : ℤ) / 2) ≤ dx ∧ dx ≤ (g : ℤ) / 2 ∧ -((g : ℤ) / 2) ≤ dy ∧ dy ≤ (g : ℤ) / 2)
  ∧ ((dx, dy) ∈ script_api.grid_offsets g →
      0 ≤ script_api.paste_pos g dx ∧ script_api.paste_pos g dx + 256 ≤ (g : ℤ) * 256
    ∧ 0 ≤ script_api.paste_pos g dy ∧ script_api.paste_pos g dy + 256 ≤ (g : ℤ) * 256) := by
  have hmod : (g : ℤ) % 2 = 1 := by omega
  have hmem : (dx, dy) ∈ script_api.grid_offsets g
      ↔ -((g : ℤ) / 2) ≤ dx ∧ dx ≤ (g : ℤ) / 2 ∧ -((g : ℤ) / 2) ≤ dy ∧ dy ≤ (g : ℤ) / 2 := by
    rw [mem_grid_offsets, mem_pyRange, mem_pyRange]
    omega
  refine ⟨?_, hmem, ?_⟩
  · rw [script_api.download_image_grid, grid_foldl_size]
  · intro hd
    obtain ⟨h1, h2, h3, h4⟩ := hmem.mp hd
    rw [script_api.paste_pos, script_api.paste_pos]
    omega

/-- Witness for C7 (amended): the theorem applied at `gridSize = 3` and
the offset (1, 0). -/
theorem c7_grid_geometry_witness :
    (1 ≤ 3 ∧ 3 % 2 = 1)
  ∧ ((script_api.download_image_grid (fun _ _ _ => none) 0 0 18 3).size = 3 * 256
  ∧ (((1 : ℤ), (0 : ℤ)) ∈ script_api.grid_offsets 3
      ↔ -(((3 : ℕ) : ℤ) / 2) ≤ 1 ∧ (1 : ℤ) ≤ ((3 : ℕ) : ℤ) / 2
      ∧ -(((3 : ℕ) : ℤ) / 2) ≤ 0 ∧ (0 : ℤ) ≤ ((3 : ℕ) : ℤ) / 2)
  ∧ (((1 : ℤ), (0 : ℤ)) ∈ script_api.grid_offsets 3 →
      0 ≤ script_api.paste_pos 3 1 ∧ script_api.paste_pos 3 1 + 256 ≤ ((3 : ℕ) : ℤ) * 256
    ∧ 0 ≤ script_api.paste_pos 3 0 ∧ script_api.paste_pos 3 0 + 256 ≤ ((3 : ℕ) : ℤ) * 256)) :=
  ⟨⟨by decide, by decide⟩,
   c7_grid_geometry 3 (by decide) (by decide) (fun _ _ _ => none) 0 0 18 1 0⟩

/-- Counterexample for C7 as stated: at the source's even `grid_size = 2`
the loop visits the offset (1, 1), whose paste position is
`(1 + 1) * 256 = 512`, and a 256-pixel tile pasted there does not lie
inside the 512-pixel canvas the composite allocates. -/
theorem c7_grid_geometry_counterexample :
    ((1 : ℤ), (1 : ℤ)) ∈ script_api.grid_offsets script_api.grid_size_src
  ∧ ¬ (script_api.paste_pos script_api.grid_size_src 1 + 256
      ≤ ((script_api.download_image_grid (fun _ _ _ => none) 0 0 18
            script_api.grid_size_src).size : ℤ)) := by
  constructor
  · decide
  · decide

/- Capture sessions. -/

/-- One screenshot file of script.py's `take_captures`: the data embedded
in the `cap_{i+1:03d}_{lat:.6f}_{lon:.6f}.png` name. -/
structure ShotFile where
  index : ℤ
  lat : ℝ
  lon : ℝ

namespace script

/-- Embedding of the capture loop of `take_captures` (script.py lines
115-138, non-manual path): walk `captures` positions from the generator,
save a screenshot named with index `i + 1` at each, and return the next
free index `start_index + captures`. The browser handle and the page-load
waits have no bearing on the emitted files or indices. -/
noncomputable def take_captures (center_lat center_lon : ℝ) (zoom : ℕ) (captures : ℕ)
    (step_m : ℝ) (direction : List Char) (start_index : ℤ) : List ShotFile × ℤ :=
  ((List.range captures).map (fun (k : ℕ) =>
    { index := start_index + (k : ℤ) + 1,
      lat := (linear_positions center_lat center_lon step_m direction k).1,
      lon := (linear_positions center_lat center_lon step_m direction k).2 }),
   start_index + captures)

end script

namespace script_api

/-- Embedding of `take_captures_api` (script_api.py lines 191-222): walk
`captures` positions from the generator, call `download_image` with index
`i + 1` at each (its return value is ignored by the loop, so a failed
save leaves no file but still advances `i`), and return `start_index +
captures`. `fetch` and `saveOk` are the per-call network and filesystem
oracles. -/
noncomputable def take_captures_api (fetch : ℤ → ℤ → ℕ → Option Tile) (saveOk : ℕ → Bool)
    (center_lat center_lon : ℝ) (zoom : ℕ) (captures : ℕ) (step_m : ℝ)
    (direction : List Char) (start_index : ℤ) : List CapFile × ℤ :=
  ((List.range captures).filterMap (fun (k : ℕ) =>
    download_image fetch (saveOk k)
      (linear_positions center_lat center_lon step_m direction k).1
      (linear_positions center_lat center_lon step_m direction k).2
      zoom (start_index + (k : ℤ) + 1)),
   start_index + captures)

end script_api

lemma download_image_save_true (fetch : ℤ → ℤ → ℕ → Option Tile) (lat lon : ℝ)
    (zoom : ℕ) (index : ℤ) :
    script_api.download_image fetch true lat lon zoom index
      = some { index := index, lat := lat, lon := lon,
               img := script_api.download_image_grid fetch
                 (script_api.get_tile_coords lat lon zoom).1
                 (script_api.get_tile_coords lat lon zoom).2 zoom
                 script_api.grid_size_src } := by
  rw [script_api.download_image, if_pos rfl]

/-- C9: in `take_captures_api` the returned next index is always
`start_index + captures` — each attempted position consumes an index and
counts toward the requested count whether or not its download persisted a
file — and when the download at step `k` fails to persist, no file with
sequence index `start_index + k + 1` appears in the output, leaving a gap
in the persisted sequence. -/
theorem c9_failed_download_consumes_index (fetch : ℤ → ℤ → ℕ → Option Tile)
    (saveOk : ℕ → Bool) (lat lon : ℝ) (zoom : ℕ) (captures : ℕ) (step : ℝ)
    (dir : List Char) (start : ℤ) :
    (script_api.take_captures_api fetch saveOk lat lon zoom captures step dir start).2
      = start + captures
  ∧ ∀ k : ℕ, k < captures → saveOk k = false →
      (start + k + 1) ∉
        ((script_api.take_captures_api fetch saveOk lat lon zoom captures step dir
            start).1.map CapFile.index) := by
  constructor
  · rfl
  · intro k hk hsk hmem
    rw [List.mem_map] at hmem
    obtain ⟨f, hf, hidx⟩ := hmem
    rw [script_api.take_captures_api] at hf
    simp only [List.mem_filterMap] at hf
    obtain ⟨j, hj, hfj⟩ := hf
    by_cases hs : saveOk j = true
    · rw [hs, download_image_save_true] at hfj
      have hidx' : start + (j : ℤ) + 1 = start + (k : ℤ) + 1 := by
        rw [← hidx]
        exact congrArg CapFile.index (Option.some.inj hfj)
      have hjk : j = k := by omega
      rw [hjk, hsk] at hs
      simp at hs
    · rw [Bool.not_eq_true] at hs
      rw [hs, script_api.download_image] at hfj
      simp at hfj

/-- Witness for C9: the theorem applied to a run of 2 captures whose
saves all fail; the next index is still 0 + 2 and index 1 is absent. -/
theorem c9_failed_download_consumes_index_witness :
    ((script_api.take_captures_api (fun _ _ _ => none) (fun _ => false) 0 0 18 2 1 eastTok
        0).2 = 0 + (2 : ℕ))
  ∧ (0 : ℕ) < 2 ∧ (fun _ : ℕ => false) 0 = false
  ∧ ((0 : ℤ) + (0 : ℕ) + 1) ∉
      ((script_api.take_captures_api (fun _ _ _ => none) (fun _ => false) 0 0 18 2 1 eastTok
          0).1.map CapFile.index) :=
  ⟨(c9_failed_download_consumes_index (fun _ _ _ => none) (fun _ => false) 0 0 18 2 1
      eastTok 0).1,
   by decide, rfl,
   (c9_failed_download_consumes_index (fun _ _ _ => none) (fun _ => false) 0 0 18 2 1
      eastTok 0).2 0 (by decide) rfl⟩

/- The end-to-end scenario of claim C3. -/

/-- The scenario anchor latitude 9.840486. -/
noncomputable def anchorLat : ℝ := 9840486 / 1000000

/-- The scenario anchor longitude 37.248504. -/
noncomputable def anchorLon : ℝ := 37248504 / 1000000

lemma anchorLat_bounds : -90 ≤ anchorLat ∧ anchorLat ≤ 90 := by
  rw [anchorLat]
  norm_num

/-- Counterexample for C3 as stated: running the claimed scenario through
script.py's `take_captures` (anchor (9.840486, 37.248504), zoom 18, step
100 m, direction `"east"`, count 3, start 0) does not produce strictly
increasing longitudes: script.py's walker holds longitude constant for
`"east"` (it advances latitude instead). -/
theorem c3_scenario_counterexample :
    ¬ List.Chain' (· < ·)
      ((script.take_captures anchorLat anchorLon 18 3 100 eastTok 0).1.map ShotFile.lon) := by
  have hrange : List.range 3 = [0, 1, 2] := by decide
  have hlon : (script.take_captures anchorLat anchorLon 18 3 100 eastTok 0).1.map ShotFile.lon
      = [anchorLon + ((0 : ℕ) : ℝ) * 0, anchorLon + ((1 : ℕ) : ℝ) * 0,
         anchorLon + ((2 : ℕ) : ℝ) * 0] := by
    simp only [script.take_captures, hrange, List.map_cons, List.map_nil,
      script_positions_closed, script_deltas_east]
  rw [hlon]
  intro h
  have h1 := (List.chain'_cons.mp h).1
  norm_num at h1

/-- C3 (amended): the claimed scenario holds exactly as stated for
script_api.py's `take_captures_api` — 3 files, sequence indices 1, 2, 3,
strictly increasing longitudes, first file's coordinate equal to the
anchor, next index 0 + 3 — while script.py's `take_captures` on the same
scenario produces the same count, indices and next index but walks the
swapped axis: strictly increasing latitudes with longitude pinned to the
anchor's. -/
theorem c3_scenario_east :
    (script_api.take_captures_api (fun _ _ _ => none) (fun _ => true) anchorLat anchorLon 18 3
        100 eastTok 0).2 = 3
  ∧ (script_api.take_captures_api (fun _ _ _ => none) (fun _ => true) anchorLat anchorLon 18 3
        100 eastTok 0).1.map CapFile.index = [1, 2, 3]
  ∧ List.Chain' (· < ·)
      ((script_api.take_captures_api (fun _ _ _ => none) (fun _ => true) anchorLat anchorLon 18
          3 100 eastTok 0).1.map CapFile.lon)
  ∧ ((script_api.take_captures_api (fun _ _ _ => none) (fun _ => true) anchorLat anchorLon 18 3
        100 eastTok 0).1.map (fun f => (f.lat, f.lon))).head? = some (anchorLat, anchorLon)
  ∧ (script.take_captures anchorLat anchorLon 18 3 100 eastTok 0).2 = 3
  ∧ (script.take_captures anchorLat anchorLon 18 3 100 eastTok 0).1.map ShotFile.index
      = [1, 2, 3]
  ∧ List.Chain' (· < ·)
      ((script.take_captures anchorLat anchorLon 18 3 100 eastTok 0).1.map ShotFile.lat)
  ∧ (script.take_captures anchorLat anchorLon 18 3 100 eastTok 0).1.map ShotFile.lon
      = [anchorLon, anchorLon, anchorLon]
  ∧ ((script.take_captures anchorLat anchorLon 18 3 100 eastTok 0).1.map
      (fun f => (f.lat, f.lon))).head? = some (anchorLat, anchorLon) := by
  have hrange : List.range 3 = [0, 1, 2] := by decide
  obtain ⟨hb1, hb2⟩ := anchorLat_bounds
  have hd := meters_to_deg_pos anchorLat 100 hb1 hb2 (by norm_num)
  have hfiles : (script_api.take_captures_api (fun _ _ _ => none) (fun _ => true) anchorLat
      anchorLon 18 3 100 eastTok 0).1
      = (List.range 3).filterMap (fun (k : ℕ) =>
          script_api.download_image (fun _ _ _ => none) true
            (script_api.linear_positions anchorLat anchorLon 100 eastTok k).1
            (script_api.linear_positions anchorLat anchorLon 100 eastTok k).2
            18 (0 + (k : ℤ) + 1)) := rfl
  refine ⟨by norm_num [script_api.take_captures_api], ?_, ?_, ?_,
    by norm_num [script.take_captures], ?_, ?_, ?_, ?_⟩
  · rw [hfiles, hrange]
    simp only [List.filterMap_cons, download_image_save_true, List.filterMap_nil,
      List.map_cons, List.map_nil]
    norm_num
  · rw [hfiles, hrange]
    simp only [List.filterMap_cons, download_image_save_true, List.filterMap_nil,
      List.map_cons, List.map_nil, script_api_positions_closed, script_api_deltas_east]
    rw [List.chain'_cons, List.chain'_cons]
    refine ⟨by push_cast; nlinarith [hd.2], by push_cast; nlinarith [hd.2], ?_⟩
    exact List.chain'_singleton _
  · rw [hfiles, hrange]
    simp only [List.filterMap_cons, download_image_save_true, List.filterMap_nil,
      List.map_cons, List.map_nil, script_api_positions_closed, script_api_deltas_east,
      List.head?_cons]
    norm_num
  · rw [script.take_captures]
    simp only [hrange, List.map_cons, List.map_nil]
    norm_num
  · rw [script.take_captures]
    simp only [hrange, List.map_cons, List.map_nil, script_positions_closed,
      script_deltas_east]
    rw [List.chain'_cons, List.chain'_cons]
    refine ⟨by push_cast; nlinarith [hd.1], by push_cast; nlinarith [hd.1], ?_⟩
    exact List.chain'_singleton _
  · rw [script.take_captures]
    simp only [hrange, List.map_cons, List.map_nil, script_positions_closed,
      script_deltas_east]
    norm_num
  · rw [script.take_captures]
    simp only [hrange, List.map_cons, List.map_nil, script_positions_closed,
      script_deltas_east, List.head?_cons]
    norm_num

/- The interactive continuation loops of the two `main` functions. -/

namespace script

/-- Embedding of the continuation loop of script.py's `main` (lines
160-167): while the next index is below 100 and the user answers
continue, run another batch of `min(10, 100 - next_idx)` captures from
the current next index. The list holds the user's continue decisions;
an exhausted list stands for a session cut short at a prompt. -/
noncomputable def main_loop (lat lon : ℝ) (zoom : ℕ) (step : ℝ) (dir : List Char) :
    List Bool → ℤ → ℤ
  | [], next => next
  | resp :: rest, next =>
    if next < 100 then
      if resp then
        main_loop lat lon zoom step dir rest
          ((take_captures lat lon zoom (min 10 (100 - next)).toNat step dir next).2)
      else next
    else next

end script

namespace script_api

/-- Embedding of the continuation loop of script_api.py's `main` (lines
271-307): while the next index is below 100 and the user answers
continue, run another batch of `min(4, 1000 - next_idx)` captures — the
source's comment says the loop is limited to 100 images in total, but the
code subtracts from 1000. Re-anchoring between batches only changes the
coordinates fed to the next batch, never the index arithmetic, so the
anchor is held fixed here. -/
noncomputable def main_loop (fetch : ℤ → ℤ → ℕ → Option Tile) (saveOk : ℕ → Bool)
    (lat lon : ℝ) (zoom : ℕ) (step : ℝ) (dir : List Char) : List Bool → ℤ → ℤ
  | [], next => next
  | resp :: rest, next =>
    if next < 100 then
      if resp then
        main_loop fetch saveOk lat lon zoom step dir rest
          ((take_captures_api fetch saveOk lat lon zoom (min 4 (1000 - next)).toNat step dir
              next).2)
      else next
    else next

end script_api

/-- C6: evaluation at the failing input. From next index 99 with the user
continuing once, script_api.py's continuation loop requests
`min(4, 1000 - 99) = 4` further captures and ends the session at index
103, exceeding the 100-image cap its own comment states; script.py's
loop, which requests `min(10, 100 - next)`, ends the same session at
exactly 100, and from any next index at most 100 it can never exceed
100. -/
theorem c6_session_cap :
    script_api.main_loop (fun _ _ _ => none) (fun _ => true) 0 0 18 100 eastTok [true] 99 = 103
  ∧ ¬ (script_api.main_loop (fun _ _ _ => none) (fun _ => true) 0 0 18 100 eastTok [true] 99
      ≤ 100)
  ∧ script.main_loop 0 0 18 100 eastTok [true] 99 = 100
  ∧ ∀ (ds : List Bool) (next : ℤ), next ≤ 100 →
      script.main_loop 0 0 18 100 eastTok ds next ≤ 100 := by
  have hapi : script_api.main_loop (fun _ _ _ => none) (fun _ => true) 0 0 18 100 eastTok
      [true] 99 = 103 := by
    rw [script_api.main_loop, if_pos (by norm_num), if_pos rfl, script_api.main_loop]
    show (99 : ℤ) + ((min 4 (1000 - 99) : ℤ).toNat : ℤ) = 103
    norm_num
  have hinv : ∀ (ds : List Bool) (next : ℤ), next ≤ 100 →
      script.main_loop 0 0 18 100 eastTok ds next ≤ 100 := by
    intro ds
    induction ds with
    | nil =>
      intro next h
      rw [script.main_loop]
      exact h
    | cons d rest ih =>
      intro next h
      rw [script.main_loop]
      by_cases h100 : next < 100
      · rw [if_pos h100]
        cases d with
        | false => rw [if_neg (by simp)]; exact h
        | true =>
          rw [if_pos rfl]
          apply ih
          show next + ((min 10 (100 - next) : ℤ).toNat : ℤ) ≤ 100
          omega
      · rw [if_neg h100]
        exact h
  have hscript : script.main_loop 0 0 18 100 eastTok [true] 99 = 100 := by
    rw [script.main_loop, if_pos (by norm_num), if_pos rfl, script.main_loop]
    show (99 : ℤ) + ((min 10 (100 - 99) : ℤ).toNat : ℤ) = 100
    norm_num
  exact ⟨hapi, by rw [hapi]; norm_num, hscript, hinv⟩

/-- Witness for C6's invariant conjunct: from next index 99 (at most 100)
script.py's continuation loop stays at or below 100. -/
theorem c6_session_cap_witness :
    (99 : ℤ) ≤ 100 ∧ script.main_loop 0 0 18 100 eastTok [true] 99 ≤ 100 :=
  ⟨by norm_num, c6_session_cap.2.2.2 [true] 99 (by norm_num)⟩

/- The Web-Mercator tile-coordinate claim. -/

/-- At latitude 89.99 (inside the claim's `|lat| < 90` domain) the
Mercator fraction is at most -1/2: the argument of the logarithm is at
least `18000 / pi > exp (2 pi)`. -/
lemma merc_frac_8999_le : mercator_frac (8999 / 100) ≤ -(1 / 2) := by
  have hpi := Real.pi_pos
  have hθeq : (8999 / 100 : ℝ) * Real.pi / 180 = 8999 * Real.pi / 18000 := by ring
  set θ : ℝ := 8999 * Real.pi / 18000 with hθdef
  have hθpos : 0 < θ := by positivity
  have hθlt : θ < Real.pi / 2 := by
    rw [hθdef]
    linarith
  have hθle_pi : θ ≤ Real.pi := by
    rw [hθdef]
    linarith
  have hcos_pos : 0 < Real.cos θ := Real.cos_pos_of_mem_Ioo ⟨by linarith, hθlt⟩
  have hsin_nonneg : 0 ≤ Real.sin θ :=
    Real.sin_nonneg_of_nonneg_of_le_pi (le_of_lt hθpos) hθle_pi
  have hgap : Real.pi / 2 - θ = Real.pi / 18000 := by
    rw [hθdef]
    ring
  have hcos_le : Real.cos θ ≤ Real.pi / 18000 := by
    have h1 : Real.cos θ = Real.sin (Real.pi / 2 - θ) := (Real.sin_pi_div_two_sub θ).symm
    rw [h1, hgap]
    exact le_of_lt (Real.sin_lt (by positivity))
  have hsum : Real.tan θ + 1 / Real.cos θ = (Real.sin θ + 1) / Real.cos θ := by
    rw [Real.tan_eq_sin_div_cos]
    field_simp
  have hv_lb : 18000 / Real.pi ≤ Real.tan θ + 1 / Real.cos θ := by
    rw [hsum]
    have h2 : 18000 / Real.pi ≤ 1 / Real.cos θ := by
      rw [div_le_div_iff₀ hpi hcos_pos]
      nlinarith [hcos_le]
    have h3 : 1 / Real.cos θ ≤ (Real.sin θ + 1) / Real.cos θ :=
      (div_le_div_iff_of_pos_right hcos_pos).mpr (by linarith)
    linarith
  have hvpos : 0 < Real.tan θ + 1 / Real.cos θ :=
    lt_of_lt_of_le (by positivity) hv_lb
  have hexp : Real.exp (2 * Real.pi) ≤ 18000 / Real.pi := by
    have hpi315 : Real.pi < 3.15 := Real.pi_lt_d2
    have he1 : Real.exp (2 * Real.pi) < Real.exp 7 := by
      apply Real.exp_lt_exp.mpr
      linarith
    have he4 : Real.exp 7 = Real.exp 1 ^ (7 : ℕ) := by
      rw [← Real.exp_nat_mul]
      norm_num
    have he2 : Real.exp 7 < 1097 := by
      rw [he4]
      have h5 : Real.exp 1 ^ (7 : ℕ) < (2.7182818286 : ℝ) ^ (7 : ℕ) :=
        pow_lt_pow_left₀ Real.exp_one_lt_d9 (le_of_lt (Real.exp_pos 1)) (by norm_num)
      have h6 : (2.7182818286 : ℝ) ^ (7 : ℕ) < 1097 := by norm_num
      linarith
    have he3 : (1097 : ℝ) ≤ 18000 / Real.pi := by
      rw [le_div_iff₀ hpi]
      nlinarith [hpi315]
    linarith
  have hlog : 2 * Real.pi ≤ Real.log (Real.tan θ + 1 / Real.cos θ) :=
    (Real.le_log_iff_exp_le hvpos).mpr (le_trans hexp hv_lb)
  rw [mercator_frac, hθeq]
  have hdiv : 2 ≤ Real.log (Real.tan θ + 1 / Real.cos θ) / Real.pi := by
    rw [le_div_iff₀ hpi]
    linarith
  linarith

lemma mercator_frac_zero : mercator_frac 0 = 1 / 2 := by
  have h0 : (0 : ℝ) * Real.pi / 180 = 0 := by ring
  rw [mercator_frac, h0, Real.tan_zero, Real.cos_zero]
  norm_num [Real.log_one]

/-- Counterexample for C8 as stated: at (lat 0, lon 180, zoom 0) — inside
the claim's domain `|lat| < 90`, `lon ∈ [-180, 180]`, `zoom ≥ 0` — the
returned x component equals `2 ^ zoom`, not below it; and at
(lat 89.99, lon 0, zoom 1) the returned y component is negative, because
the Mercator fraction is negative there and `int()` truncation is applied
to a negative argument. -/
theorem c8_tile_coords_counterexample :
    ¬ ((script_api.get_tile_coords 0 180 0).1 < 2 ^ (0 : ℕ))
  ∧ (script_api.get_tile_coords (8999 / 100) 0 1).2 < 0 := by
  constructor
  · show ¬ (pyTruncR (((180 : ℝ) + 180) / 360 * 2 ^ (0 : ℕ)) < 2 ^ (0 : ℕ))
    have h1 : ((180 : ℝ) + 180) / 360 * 2 ^ (0 : ℕ) = 1 := by norm_num
    rw [pyTruncR, h1, if_neg (by norm_num)]
    norm_num
  · show pyTruncR (mercator_frac (8999 / 100) * 2 ^ (1 : ℕ)) < 0
    have hm := merc_frac_8999_le
    have harg : mercator_frac (8999 / 100) * 2 ^ (1 : ℕ) ≤ -1 := by
      norm_num
      linarith
    rw [pyTruncR, if_pos (by linarith)]
    have hfl : (1 : ℤ) ≤ ⌊-(mercator_frac (8999 / 100) * 2 ^ (1 : ℕ))⌋ := by
      apply Int.le_floor.mpr
      push_cast
      linarith
    omega

/-- C8 (amended): for every longitude in `[-180, 180)` and every latitude
whose Web-Mercator fraction lies in `[0, 1)` (the claim's `|lat| < 90`
and `lon = 180` boundary cases fall outside this domain and fail — see
the counterexample), `get_tile_coords` returns exactly the floors of the
standard Web-Mercator formulas and both components lie in
`[0, 2 ^ zoom)`. -/
theorem c8_tile_coords_in_range (lat lon : ℝ) (zoom : ℕ)
    (h1 : -180 ≤ lon) (h2 : lon < 180)
    (h3 : 0 ≤ mercator_frac lat) (h4 : mercator_frac lat < 1) :
    script_api.get_tile_coords lat lon zoom
      = (⌊(lon + 180) / 360 * 2 ^ zoom⌋, ⌊mercator_frac lat * 2 ^ zoom⌋)
  ∧ 0 ≤ (script_api.get_tile_coords lat lon zoom).1
  ∧ (script_api.get_tile_coords lat lon zoom).1 < 2 ^ zoom
  ∧ 0 ≤ (script_api.get_tile_coords lat lon zoom).2
  ∧ (script_api.get_tile_coords lat lon zoom).2 < 2 ^ zoom := by
  have hn : (0 : ℝ) < 2 ^ zoom := by positivity
  have hx0 : 0 ≤ (lon + 180) / 360 * 2 ^ zoom :=
    mul_nonneg (div_nonneg (by linarith) (by norm_num)) (le_of_lt hn)
  have hx1 : (lon + 180) / 360 * 2 ^ zoom < 2 ^ zoom := by
    have hfrac : (lon + 180) / 360 < 1 := (div_lt_one (by norm_num)).mpr (by linarith)
    nlinarith
  have hy0 : 0 ≤ mercator_frac lat * 2 ^ zoom := mul_nonneg h3 (le_of_lt hn)
  have hy1 : mercator_frac lat * 2 ^ zoom < 2 ^ zoom := by nlinarith
  have heq : script_api.get_tile_coords lat lon zoom
      = (⌊(lon + 180) / 360 * 2 ^ zoom⌋, ⌊mercator_frac lat * 2 ^ zoom⌋) := by
    rw [script_api.get_tile_coords, pyTruncR, pyTruncR, if_neg (not_lt.mpr hx0),
      if_neg (not_lt.mpr hy0)]
  rw [heq]
  refine ⟨rfl, ?_, ?_, ?_, ?_⟩
  · exact Int.floor_nonneg.mpr hx0
  · apply Int.floor_lt.mpr
    push_cast
    exact hx1
  · exact Int.floor_nonneg.mpr hy0
  · apply Int.floor_lt.mpr
    push_cast
    exact hy1

/-- Witness for C8 (amended): the theorem applied at the origin, where
the Mercator fraction is exactly 1/2. -/
theorem c8_tile_coords_in_range_witness :
    ((-180 : ℝ) ≤ 0 ∧ (0 : ℝ) < 180 ∧ 0 ≤ mercator_frac 0 ∧ mercator_frac 0 < 1)
  ∧ (script_api.get_tile_coords 0 0 0
      = (⌊((0 : ℝ) + 180) / 360 * 2 ^ (0 : ℕ)⌋, ⌊mercator_frac 0 * 2 ^ (0 : ℕ)⌋)
  ∧ 0 ≤ (script_api.get_tile_coords 0 0 0).1
  ∧ (script_api.get_tile_coords 0 0 0).1 < 2 ^ (0 : ℕ)
  ∧ 0 ≤ (script_api.get_tile_coords 0 0 0).2
  ∧ (script_api.get_tile_coords 0 0 0).2 < 2 ^ (0 : ℕ)) :=
  ⟨⟨by norm_num, by norm_num, by rw [mercator_frac_zero]; norm_num,
      by rw [mercator_frac_zero]; norm_num⟩,
   c8_tile_coords_in_range 0 0 0 (by norm_num) (by norm_num)
     (by rw [mercator_frac_zero]; norm_num) (by rw [mercator_frac_zero]; norm_num)⟩
